import Mathlib

/-!
Verification of the report-building core of the Bakery weather library
(`bakery_weather.py`, version 0.0.4) against its specification.

The Python module is shallowly embedded as follows.

* Dynamically typed JSON/Python values are the inductive type `PyVal`
  (null, booleans, ints, floats, strings, lists, dicts with string keys).
* Python floats are modelled by `Rat`: the module performs no floating-point
  arithmetic — float values are only parsed from finite decimal string
  literals, stored in records and rendered, all of which `Rat` represents
  exactly.  The string forms Python additionally accepts for `float()`
  (exponents, `inf`, `nan`) are outside the model.
* Python exceptions that can escape the functions under study are the type
  `PyError`; a fallible Python expression is an `Except PyError` value, and
  statement sequencing is the `Except` monad, so an uncaught exception
  short-circuits exactly as in Python.
* `int()` on strings is modelled for optionally signed decimal digit strings
  surrounded by whitespace (Python's underscore separators and non-ASCII
  digits are outside the model).
-/

inductive PyVal where
  | none
  | bool (b : Bool)
  | int (n : Int)
  | float (q : Rat)
  | str (s : String)
  | list (xs : List PyVal)
  | dict (entries : List (String × PyVal))

inductive PyError where
  | typeError
  | attributeError
  | keyError (key : String)
  | valueError (msg : String)
  deriving DecidableEq

/-- Scalar values are exactly those on which Python's `int()`/`float()`
either succeed or fail with a `ValueError`; on lists and dicts they fail
with a `TypeError` instead. -/
def PyVal.isScalar : PyVal → Bool
  | .list _ => false
  | .dict _ => false
  | _ => true

/-- The whitespace characters recognised by Python's `str.strip()` that can
occur in JSON string values. -/
def isPySpace (c : Char) : Bool :=
  c == ' ' || c == '\t' || c == '\n' || c == '\r'

/-- Python `s.strip()`, as performed by `int()`/`float()` before parsing. -/
def pyStrip (s : String) : List Char :=
  ((s.toList.dropWhile isPySpace).reverse.dropWhile isPySpace).reverse

/-- Numeric value of a string of decimal digits. -/
def digitsVal (ds : List Char) : Nat :=
  ds.foldl (fun acc c => 10 * acc + (c.toNat - 48)) 0

/-- Split an optional leading sign; returns (isNegative, remainder). -/
def splitSign : List Char → Bool × List Char
  | '+' :: t => (false, t)
  | '-' :: t => (true, t)
  | t => (false, t)

/-- Python `int(s)` for a string argument: strip whitespace, optional sign,
then a non-empty run of decimal digits; otherwise `ValueError`. -/
def strToInt (s : String) : Except PyError Int :=
  let p := splitSign (pyStrip s)
  if !p.2.isEmpty && p.2.all Char.isDigit then
    .ok (if p.1 then -(digitsVal p.2 : Int) else (digitsVal p.2 : Int))
  else
    .error (.valueError ("invalid literal for int() with base 10: " ++ s))

/-- Python `float(s)` for a string argument: strip whitespace, optional
sign, decimal digits with at most one point and at least one digit;
otherwise `ValueError`.  (Exponent forms and `inf`/`nan` are outside the
model; no claim depends on them.) -/
def strToFloat (s : String) : Except PyError Rat :=
  let p := splitSign (pyStrip s)
  let ip := p.2.takeWhile Char.isDigit
  let rest := p.2.dropWhile Char.isDigit
  match rest with
  | [] =>
    if !ip.isEmpty then
      .ok (if p.1 then -(digitsVal ip : Rat) else (digitsVal ip : Rat))
    else
      .error (.valueError ("could not convert string to float: " ++ s))
  | '.' :: fp =>
    if fp.all Char.isDigit && (!ip.isEmpty || !fp.isEmpty) then
      let n : Nat := digitsVal ip * 10 ^ fp.length + digitsVal fp
      .ok (mkRat (if p.1 then -(n : Int) else (n : Int)) (10 ^ fp.length))
    else
      .error (.valueError ("could not convert string to float: " ++ s))
  | _ => .error (.valueError ("could not convert string to float: " ++ s))

/-- Python `int(value)` on the JSON value domain: exact on ints and bools,
truncation toward zero on floats, decimal parsing on strings, `TypeError`
on `None`, lists and dicts. -/
def int_conv : PyVal → Except PyError Int
  | .bool b => .ok (if b then 1 else 0)
  | .int n => .ok n
  | .float q => .ok (Int.tdiv q.num q.den)
  | .str s => strToInt s
  | _ => .error .typeError

/-- Python `float(value)` on the JSON value domain. -/
def float_conv : PyVal → Except PyError Rat
  | .bool b => .ok (if b then 1 else 0)
  | .int n => .ok (n : Rat)
  | .float q => .ok q
  | .str s => strToFloat s
  | _ => .error .typeError

/-- Python truthiness: `bool(value)`. -/
def py_truth : PyVal → Bool
  | .none => false
  | .bool b => b
  | .int n => n != 0
  | .float q => q != 0
  | .str s => s != ""
  | .list xs => !xs.isEmpty
  | .dict es => !es.isEmpty

/-- Python `bool(value)`: every value of the JSON domain has a truth value,
so the conversion never fails (the `Except` shape mirrors the call site
inside `parse_boolean`, whose fallback is therefore dead). -/
def bool_conv (v : PyVal) : Except PyError Bool :=
  .ok (py_truth v)

/-- `parse_int` from `bakery_weather.py`: `None` returns the default
immediately; otherwise `int(value)` with only `ValueError` caught. -/
def parse_int (value : PyVal) (default : Int := 0) : Except PyError Int :=
  match value with
  | .none => .ok default
  | v =>
    match int_conv v with
    | .ok n => .ok n
    | .error (.valueError _) => .ok default
    | .error e => .error e

/-- `parse_float` from `bakery_weather.py`: `None` returns the default
immediately; otherwise `float(value)` with only `ValueError` caught. -/
def parse_float (value : PyVal) (default : Rat := 0) : Except PyError Rat :=
  match value with
  | .none => .ok default
  | v =>
    match float_conv v with
    | .ok q => .ok q
    | .error (.valueError _) => .ok default
    | .error e => .error e

/-- `parse_boolean` from `bakery_weather.py`: `None` returns the default
immediately; otherwise `bool(value)` with only `ValueError` caught. -/
def parse_boolean (value : PyVal) (default : Bool := false) : Except PyError Bool :=
  match value with
  | .none => .ok default
  | v =>
    match bool_conv v with
    | .ok b => .ok b
    | .error (.valueError _) => .ok default
    | .error e => .error e

/-- Python `v.get(key)` (dict method, one-argument form): `None` when the
key is absent; `AttributeError` when the receiver is not a dict. -/
def pyGet (v : PyVal) (key : String) : Except PyError PyVal :=
  match v with
  | .dict es => .ok ((es.lookup key).getD .none)
  | _ => .error .attributeError

/-- Python `v.get(key, dflt)` (dict method, two-argument form). -/
def pyGetD (v : PyVal) (key : String) (dflt : PyVal) : Except PyError PyVal :=
  match v with
  | .dict es => .ok ((es.lookup key).getD dflt)
  | _ => .error .attributeError

/-- Python `v[key]` for a string key: `KeyError` when a dict lacks the key,
`TypeError` when the receiver is not a dict (string subscripts are invalid
for lists and strings, and other values are not subscriptable). -/
def pySubscript (v : PyVal) (key : String) : Except PyError PyVal :=
  match v with
  | .dict es =>
    match es.lookup key with
    | some x => .ok x
    | Option.none => .error (.keyError key)
  | _ => .error .typeError

/-- Python `iter(v)`, materialised: lists yield their elements, strings
their one-character substrings, dicts their keys; other values raise
`TypeError`. -/
def pyIter (v : PyVal) : Except PyError (List PyVal) :=
  match v with
  | .list xs => .ok xs
  | .str s => .ok (s.toList.map fun c => .str (String.mk [c]))
  | .dict es => .ok (es.map fun kv => .str kv.1)
  | _ => .error .typeError

/-- Python `s + v` where `s` is a string literal: string concatenation when
`v` is a string, `TypeError` otherwise. -/
def pyStrAdd (s : String) (v : PyVal) : Except PyError String :=
  match v with
  | .str t => .ok (s ++ t)
  | _ => .error .typeError

/-- The comprehension body `label == 'High'`: Python equality between an
arbitrary value and the string literal `'High'`. -/
def isHighLabel : PyVal → Bool
  | .str s => s == "High"
  | _ => false

/-- Dataclass `ReportLocation`.  Field types are the runtime types produced
by `create_report`: coordinates come from `parse_float` (so `Rat`), while
`name` is stored unchecked (so any `PyVal`). -/
structure ReportLocation where
  latitude : Rat
  longitude : Rat
  elevation : Rat
  name : PyVal

/-- Dataclass `WeatherData` with runtime field types: `description` is
stored unchecked; `url` is always a string because it comes from a string
concatenation. -/
structure WeatherData where
  temperature : Int
  dewpoint : Int
  humidity : Int
  wind_speed : Int
  wind_direction : Int
  description : PyVal
  url : String
  visibility : Rat
  wind_chill : Int
  pressure : Rat

/-- Dataclass `Forecast` with runtime field types: `when`, `url`, `status`
and `description` are stored unchecked from the server sequences. -/
structure Forecast where
  when : PyVal
  is_high : Bool
  temperature : Int
  precipitation : Int
  url : PyVal
  status : PyVal
  description : PyVal

/-- Dataclass `WeatherReport`. -/
structure WeatherReport where
  location : ReportLocation
  current : WeatherData
  forecast : List Forecast

/-- The `ReportLocation(...)` argument block of `create_report`, applied to
`raw.get('location', {})`; evaluation order matches the Python argument
order. -/
def buildLocation (v : PyVal) : Except PyError ReportLocation := do
  let latV ← pyGet v "latitude"
  let lat ← parse_float latV
  let lonV ← pyGet v "longitude"
  let lon ← parse_float lonV
  let elevV ← pyGet v "elevation"
  let elev ← parse_float elevV
  let name ← pyGetD v "areaDescription" (.str "Unknown location")
  return ⟨lat, lon, elev, name⟩

/-- The `WeatherData(...)` argument block of `create_report`, applied to
`raw.get('currentobservation', {})`; evaluation order matches the Python
argument order. -/
def buildCurrent (v : PyVal) : Except PyError WeatherData := do
  let tempV ← pyGet v "Temp"
  let temp ← parse_int tempV
  let dewpV ← pyGet v "Dewp"
  let dewp ← parse_int dewpV
  let relhV ← pyGet v "Relh"
  let relh ← parse_int relhV
  let windsV ← pyGet v "Winds"
  let winds ← parse_int windsV
  let winddV ← pyGet v "Windd"
  let windd ← parse_int winddV
  let weather ← pyGetD v "Weather" (.str "")
  let image ← pyGetD v "Weatherimage" (.str "")
  let url ← pyStrAdd "https://forecast.weather.gov/newimages/medium/" image
  let visV ← pyGet v "Visibility"
  let vis ← parse_float visV
  let chillV ← pyGet v "WindChill"
  let chill ← parse_int chillV
  let slpV ← pyGet v "SLP"
  let slp ← parse_float slpV
  return ⟨temp, dewp, relh, winds, windd, weather, url, vis, chill, slp⟩

/-- `list(map(Forecast, names, highs, temps, pops, icons, weathers,
texts))`: `map` with several iterables stops at the shortest; per consumed
element, `parse_int` is applied lazily to the temperature and then the
precipitation entry, exactly as the two inner `map(parse_int, ...)`
iterators are advanced.  At the stopping step `map` still advances the
iterators in argument order until it hits the first exhausted one, so when
the exhausted sequence comes after the temperatures (resp. the
precipitation values) in argument order, `parse_int` is applied to the
temperature (resp. precipitation) entry at the stopping index and an
uncaught `TypeError` from it propagates even though the entry never
reaches a `Forecast`. -/
def zipForecast : List PyVal → List Bool → List PyVal → List PyVal →
    List PyVal → List PyVal → List PyVal → Except PyError (List Forecast)
  | n :: ns, h :: hs, t :: ts, p :: ps, i :: icons, w :: ws, x :: xs => do
    let temp ← parse_int t
    let pop ← parse_int p
    let rest ← zipForecast ns hs ts ps icons ws xs
    return ⟨n, h, temp, pop, i, w, x⟩ :: rest
  | [], _, _, _, _, _, _ => .ok []
  | _ :: _, [], _, _, _, _, _ => .ok []
  | _ :: _, _ :: _, [], _, _, _, _ => .ok []
  | _ :: _, _ :: _, t :: _, [], _, _, _ => do
    let _ ← parse_int t
    .ok []
  | _ :: _, _ :: _, t :: _, p :: _, _, _, _ => do
    let _ ← parse_int t
    let _ ← parse_int p
    .ok []

/-- The forecast argument of the `WeatherReport(...)` call: subscripts,
the eager `[label == 'High' for label in ...]` comprehension, the lazy
`map(parse_int, ...)` iterators and the outer seven-iterable `map`, in
Python's evaluation order. -/
def buildForecast (raw : List (String × PyVal)) : Except PyError (List Forecast) := do
  let timeV ← pySubscript (.dict raw) "time"
  let namesV ← pySubscript timeV "startPeriodName"
  let labelsV ← pySubscript timeV "tempLabel"
  let labels ← pyIter labelsV
  let highs := labels.map isHighLabel
  let dataV ← pySubscript (.dict raw) "data"
  let tempsV ← pySubscript dataV "temperature"
  let temps ← pyIter tempsV
  let popsV ← pySubscript dataV "pop"
  let pops ← pyIter popsV
  let iconsV ← pySubscript dataV "iconLink"
  let weathersV ← pySubscript dataV "weather"
  let textsV ← pySubscript dataV "text"
  let names ← pyIter namesV
  let icons ← pyIter iconsV
  let weathers ← pyIter weathersV
  let texts ← pyIter textsV
  zipForecast names highs temps pops icons weathers texts

/-- The `ValueError` message raised when the `time` key is missing: the
adjacent string literals of the `raise` statement with the f-string
fields spliced in. -/
def missing_time_message (latitude longitude : Rat) : String :=
  "Fields are unexpectedly missing from the response returned by the server. " ++
    "Check your latitude and longitude, make sure it is in the United States!\n" ++
    " Latitude=" ++ toString latitude ++ ", Longitude=" ++ toString longitude

/-- `create_report` from `bakery_weather.py`.  The raw payload is a JSON
object, so a list of string-keyed entries; latitude and longitude are the
caller's coordinates, used only in the error message. -/
def create_report (raw : List (String × PyVal)) (latitude longitude : Rat) :
    Except PyError WeatherReport :=
  if (raw.lookup "time").isNone then
    .error (.valueError (missing_time_message latitude longitude))
  else do
    let loc ← buildLocation ((raw.lookup "location").getD (.dict []))
    let cur ← buildCurrent ((raw.lookup "currentobservation").getD (.dict []))
    let fc ← buildForecast raw
    return ⟨loc, cur, fc⟩

/-- A concrete `time` block with two forecast periods. -/
def sampleTime : List (String × PyVal) :=
  [("startPeriodName", .list [.str "Tonight", .str "Saturday"]),
   ("tempLabel", .list [.str "Low", .str "High"])]

/-- A concrete `data` block with two entries per sequence. -/
def sampleData : List (String × PyVal) :=
  [("temperature", .list [.str "58", .int 70]),
   ("pop", .list [.none, .str "30"]),
   ("iconLink", .list [.str "a.png", .str "b.png"]),
   ("weather", .list [.str "Clear", .str "Sunny"]),
   ("text", .list [.str "ta", .str "tb"])]

/-- A well-formed two-period payload without location or current blocks. -/
def sampleRaw : List (String × PyVal) :=
  [("time", .dict sampleTime), ("data", .dict sampleData)]

/-- The forecast list `create_report` builds from `sampleRaw`. -/
def sampleForecast : List Forecast :=
  [⟨.str "Tonight", false, 58, 0, .str "a.png", .str "Clear", .str "ta"⟩,
   ⟨.str "Saturday", true, 70, 30, .str "b.png", .str "Sunny", .str "tb"⟩]

/-- The report `create_report` builds from `sampleRaw`. -/
def sampleRep : WeatherReport :=
  ⟨⟨0, 0, 0, .str "Unknown location"⟩,
   ⟨0, 0, 0, 0, 0, .str "", "https://forecast.weather.gov/newimages/medium/", 0, 0, 0⟩,
   sampleForecast⟩

/-- A concrete `currentobservation` block. -/
def sampleCur : List (String × PyVal) :=
  [("Temp", .str "58"), ("Weatherimage", .str "nbkn.png")]

/-- `sampleRaw` extended with a current-observation block. -/
def sampleCurRaw : List (String × PyVal) :=
  [("time", .dict sampleTime), ("data", .dict sampleData),
   ("currentobservation", .dict sampleCur)]

/-- The report `create_report` builds from `sampleCurRaw`. -/
def sampleCurRep : WeatherReport :=
  ⟨⟨0, 0, 0, .str "Unknown location"⟩,
   ⟨58, 0, 0, 0, 0, .str "", "https://forecast.weather.gov/newimages/medium/nbkn.png", 0, 0, 0⟩,
   sampleForecast⟩

/-- A payload whose seven forecast sequences have unequal lengths (2, 1, 2,
3, 1, 1, 1); the temperature entry past the consumed length is an
unparseable string, which never reaches a forecast entry. -/
def sampleRaggedRaw : List (String × PyVal) :=
  [("time", .dict [("startPeriodName", .list [.str "Tonight", .str "Saturday"]),
                   ("tempLabel", .list [.str "High"])]),
   ("data", .dict [("temperature", .list [.str "60", .str "x"]),
                   ("pop", .list [.none, .none, .none]),
                   ("iconLink", .list [.str "i.png"]),
                   ("weather", .list [.str "Sunny"]),
                   ("text", .list [.str "t"])])]

/-! ### General lemmas about the embedding -/

theorem ok_bind {α β : Type} (a : α) (f : α → Except PyError β) :
    (Except.ok a >>= f) = f a := rfl

theorem error_bind {α β : Type} (e : PyError) (f : α → Except PyError β) :
    ((Except.error e : Except PyError α) >>= f) = Except.error e := rfl

theorem pure_ok {α : Type} (a : α) : (pure a : Except PyError α) = Except.ok a := rfl

theorem except_bind_ok {α β : Type} {x : Except PyError α} {f : α → Except PyError β}
    {b : β} (h : x >>= f = .ok b) : ∃ a, x = .ok a ∧ f a = .ok b := by
  cases x with
  | error e => rw [error_bind] at h; exact absurd h (by simp)
  | ok a => exact ⟨a, rfl, h⟩

theorem strToInt_cases (s : String) :
    (∃ n, strToInt s = .ok n) ∨ (∃ m, strToInt s = .error (.valueError m)) := by
  cases h : strToInt s with
  | ok n => exact Or.inl ⟨n, rfl⟩
  | error e =>
    refine Or.inr ?_
    unfold strToInt at h
    dsimp only at h
    split at h
    · exact absurd h (by simp)
    · injection h with h'
      exact ⟨_, congrArg Except.error h'.symm⟩

theorem strToFloat_cases (s : String) :
    (∃ q, strToFloat s = .ok q) ∨ (∃ m, strToFloat s = .error (.valueError m)) := by
  cases h : strToFloat s with
  | ok q => exact Or.inl ⟨q, rfl⟩
  | error e =>
    refine Or.inr ?_
    unfold strToFloat at h
    dsimp only at h
    split at h
    · split at h
      · exact absurd h (by simp)
      · injection h with h'
        exact ⟨_, congrArg Except.error h'.symm⟩
    · split at h
      · exact absurd h (by simp)
      · injection h with h'
        exact ⟨_, congrArg Except.error h'.symm⟩
    · injection h with h'
      exact ⟨_, congrArg Except.error h'.symm⟩

/-- `parse_int` is total on scalars and raises `TypeError` exactly on
lists and dicts. -/
theorem parse_int_total_cases (v : PyVal) (d : Int) :
    (∃ n, parse_int v d = .ok n) ∨
      (v.isScalar = false ∧ parse_int v d = .error .typeError) := by
  cases v with
  | none => exact Or.inl ⟨d, rfl⟩
  | bool b => exact Or.inl ⟨_, rfl⟩
  | int n => exact Or.inl ⟨n, rfl⟩
  | float q => exact Or.inl ⟨_, rfl⟩
  | str s =>
    rcases strToInt_cases s with ⟨n, h⟩ | ⟨m, h⟩
    · exact Or.inl ⟨n, by simp [parse_int, int_conv, h]⟩
    · exact Or.inl ⟨d, by simp [parse_int, int_conv, h]⟩
  | list xs => exact Or.inr ⟨rfl, rfl⟩
  | dict es => exact Or.inr ⟨rfl, rfl⟩

theorem parse_float_total_cases (v : PyVal) (d : Rat) :
    (∃ q, parse_float v d = .ok q) ∨
      (v.isScalar = false ∧ parse_float v d = .error .typeError) := by
  cases v with
  | none => exact Or.inl ⟨d, rfl⟩
  | bool b => exact Or.inl ⟨_, rfl⟩
  | int n => exact Or.inl ⟨_, rfl⟩
  | float q => exact Or.inl ⟨q, rfl⟩
  | str s =>
    rcases strToFloat_cases s with ⟨q, h⟩ | ⟨m, h⟩
    · exact Or.inl ⟨q, by simp [parse_float, float_conv, h]⟩
    · exact Or.inl ⟨d, by simp [parse_float, float_conv, h]⟩
  | list xs => exact Or.inr ⟨rfl, rfl⟩
  | dict es => exact Or.inr ⟨rfl, rfl⟩

theorem parse_int_scalar_ok {v : PyVal} (d : Int) (h : v.isScalar = true) :
    ∃ n, parse_int v d = .ok n := by
  rcases parse_int_total_cases v d with h' | ⟨hf, _⟩
  · exact h'
  · rw [h] at hf; exact absurd hf (by simp)

theorem parse_float_scalar_ok {v : PyVal} (d : Rat) (h : v.isScalar = true) :
    ∃ q, parse_float v d = .ok q := by
  rcases parse_float_total_cases v d with h' | ⟨hf, _⟩
  · exact h'
  · rw [h] at hf; exact absurd hf (by simp)

theorem parse_int_error_inv {v : PyVal} {d : Int} {e : PyError}
    (h : parse_int v d = .error e) : e = .typeError ∧ v.isScalar = false := by
  rcases parse_int_total_cases v d with ⟨n, h'⟩ | ⟨hf, h'⟩
  · rw [h'] at h; exact absurd h (by simp)
  · rw [h'] at h
    exact ⟨(Except.error.inj h).symm, hf⟩

theorem parse_float_error_inv {v : PyVal} {d : Rat} {e : PyError}
    (h : parse_float v d = .error e) : e = .typeError ∧ v.isScalar = false := by
  rcases parse_float_total_cases v d with ⟨q, h'⟩ | ⟨hf, h'⟩
  · rw [h'] at h; exact absurd h (by simp)
  · rw [h'] at h
    exact ⟨(Except.error.inj h).symm, hf⟩

theorem parse_int_valueError {v : PyVal} {m : String} (d : Int)
    (h : int_conv v = .error (.valueError m)) : parse_int v d = .ok d := by
  cases v <;> simp_all [parse_int, int_conv]

theorem parse_float_valueError {v : PyVal} {m : String} (d : Rat)
    (h : float_conv v = .error (.valueError m)) : parse_float v d = .ok d := by
  cases v <;> simp_all [parse_float, float_conv]

theorem isHighLabel_iff (v : PyVal) : isHighLabel v = true ↔ v = PyVal.str "High" := by
  cases v <;> simp [isHighLabel]

/-- String test used for the one value that flows into a string
concatenation. -/
def PyVal.isStr : PyVal → Bool
  | .str _ => true
  | _ => false

theorem pyStrAdd_ok {v : PyVal} (s : String) (h : v.isStr = true) :
    ∃ u, pyStrAdd s v = .ok u := by
  cases v <;> simp [PyVal.isStr] at h ⊢
  exact ⟨_, rfl⟩

/-- The three '.get' results that `buildLocation` feeds to `parse_float`
are scalars, so the coercions cannot raise. -/
def locFieldsOK (l : List (String × PyVal)) : Bool :=
  ((l.lookup "latitude").getD .none).isScalar &&
  ((l.lookup "longitude").getD .none).isScalar &&
  ((l.lookup "elevation").getD .none).isScalar

/-- The '.get' results that `buildCurrent` feeds to the coercers are
scalars and the image filename is a string. -/
def curFieldsOK (c : List (String × PyVal)) : Bool :=
  ((c.lookup "Temp").getD .none).isScalar &&
  ((c.lookup "Dewp").getD .none).isScalar &&
  ((c.lookup "Relh").getD .none).isScalar &&
  ((c.lookup "Winds").getD .none).isScalar &&
  ((c.lookup "Windd").getD .none).isScalar &&
  ((c.lookup "Weatherimage").getD (.str "")).isStr &&
  ((c.lookup "Visibility").getD .none).isScalar &&
  ((c.lookup "WindChill").getD .none).isScalar &&
  ((c.lookup "SLP").getD .none).isScalar

/-- A raw payload whose `time` and `data` blocks are mappings containing
the seven parallel forecast sequences as JSON arrays. -/
structure RawShape (raw t d : List (String × PyVal))
    (names labels temps pops icons weathers texts : List PyVal) : Prop where
  time_eq : raw.lookup "time" = some (.dict t)
  data_eq : raw.lookup "data" = some (.dict d)
  names_eq : t.lookup "startPeriodName" = some (.list names)
  labels_eq : t.lookup "tempLabel" = some (.list labels)
  temps_eq : d.lookup "temperature" = some (.list temps)
  pops_eq : d.lookup "pop" = some (.list pops)
  icons_eq : d.lookup "iconLink" = some (.list icons)
  weathers_eq : d.lookup "weather" = some (.list weathers)
  texts_eq : d.lookup "text" = some (.list texts)

/-- The length at which `map` over seven iterables stops. -/
def min7 (a b c d e f g : Nat) : Nat :=
  min a (min b (min c (min d (min e (min f g)))))

theorem min7_succ (a b c d e f g : Nat) :
    min7 (a + 1) (b + 1) (c + 1) (d + 1) (e + 1) (f + 1) (g + 1) =
      min7 a b c d e f g + 1 := by
  simp only [min7]
  omega

theorem buildLocation_ok {l : List (String × PyVal)} (h : locFieldsOK l = true) :
    ∃ loc : ReportLocation,
      buildLocation (.dict l) = .ok loc ∧
      parse_float ((l.lookup "latitude").getD .none) = .ok loc.latitude ∧
      parse_float ((l.lookup "longitude").getD .none) = .ok loc.longitude ∧
      parse_float ((l.lookup "elevation").getD .none) = .ok loc.elevation ∧
      loc.name = (l.lookup "areaDescription").getD (.str "Unknown location") := by
  simp only [locFieldsOK, Bool.and_eq_true] at h
  obtain ⟨⟨h1, h2⟩, h3⟩ := h
  obtain ⟨lat, hlat⟩ := parse_float_scalar_ok 0 h1
  obtain ⟨lon, hlon⟩ := parse_float_scalar_ok 0 h2
  obtain ⟨elev, helev⟩ := parse_float_scalar_ok 0 h3
  refine ⟨⟨lat, lon, elev, (l.lookup "areaDescription").getD (.str "Unknown location")⟩,
    ?_, hlat, hlon, helev, rfl⟩
  simp [buildLocation, pyGet, pyGetD, hlat, hlon, helev, ok_bind, pure_ok]

theorem buildCurrent_ok {c : List (String × PyVal)} (h : curFieldsOK c = true) :
    ∃ cur : WeatherData, buildCurrent (.dict c) = .ok cur := by
  simp only [curFieldsOK, Bool.and_eq_true] at h
  obtain ⟨⟨⟨⟨⟨⟨⟨⟨h1, h2⟩, h3⟩, h4⟩, h5⟩, h6⟩, h7⟩, h8⟩, h9⟩ := h
  obtain ⟨temp, htemp⟩ := parse_int_scalar_ok 0 h1
  obtain ⟨dewp, hdewp⟩ := parse_int_scalar_ok 0 h2
  obtain ⟨relh, hrelh⟩ := parse_int_scalar_ok 0 h3
  obtain ⟨winds, hwinds⟩ := parse_int_scalar_ok 0 h4
  obtain ⟨windd, hwindd⟩ := parse_int_scalar_ok 0 h5
  obtain ⟨url, hurl⟩ := pyStrAdd_ok "https://forecast.weather.gov/newimages/medium/" h6
  obtain ⟨vis, hvis⟩ := parse_float_scalar_ok 0 h7
  obtain ⟨chill, hchill⟩ := parse_int_scalar_ok 0 h8
  obtain ⟨slp, hslp⟩ := parse_float_scalar_ok 0 h9
  refine ⟨⟨temp, dewp, relh, winds, windd,
    (c.lookup "Weather").getD (.str ""), url, vis, chill, slp⟩, ?_⟩
  simp [buildCurrent, pyGet, pyGetD, htemp, hdewp, hrelh, hwinds, hwindd,
    hurl, hvis, hchill, hslp, ok_bind, pure_ok]

theorem buildCurrent_fields {c : List (String × PyVal)} {cur : WeatherData}
    (h : buildCurrent (.dict c) = .ok cur) :
    parse_int ((c.lookup "Temp").getD .none) = .ok cur.temperature ∧
    pyStrAdd "https://forecast.weather.gov/newimages/medium/"
        ((c.lookup "Weatherimage").getD (.str "")) = .ok cur.url := by
  simp only [buildCurrent, pyGet, pyGetD, ok_bind] at h
  obtain ⟨temp, htemp, h⟩ := except_bind_ok h
  obtain ⟨dewp, hdewp, h⟩ := except_bind_ok h
  obtain ⟨relh, hrelh, h⟩ := except_bind_ok h
  obtain ⟨winds, hwinds, h⟩ := except_bind_ok h
  obtain ⟨windd, hwindd, h⟩ := except_bind_ok h
  obtain ⟨url, hurl, h⟩ := except_bind_ok h
  obtain ⟨vis, hvis, h⟩ := except_bind_ok h
  obtain ⟨chill, hchill, h⟩ := except_bind_ok h
  obtain ⟨slp, hslp, h⟩ := except_bind_ok h
  rw [pure_ok] at h
  injection h with h2
  subst h2
  exact ⟨htemp, hurl⟩

theorem zipForecast_length (ns : List PyVal) :
    ∀ (hs : List Bool) (ts ps is2 ws xs : List PyVal) (fc : List Forecast),
      zipForecast ns hs ts ps is2 ws xs = .ok fc →
      fc.length = min7 ns.length hs.length ts.length ps.length is2.length
        ws.length xs.length := by
  induction ns with
  | nil =>
    intro hs ts ps is2 ws xs fc h
    simp only [zipForecast] at h
    injection h with h2
    subst h2
    simp [min7]
  | cons n ns ih =>
    intro hs ts ps is2 ws xs fc h
    cases hs with
    | nil =>
      simp only [zipForecast] at h
      injection h with h2
      subst h2
      simp [min7]
    | cons b hs =>
      cases ts with
      | nil =>
        simp only [zipForecast] at h
        injection h with h2
        subst h2
        simp [min7]
      | cons t ts =>
        cases ps with
        | nil =>
          simp only [zipForecast] at h
          obtain ⟨-, -, h⟩ := except_bind_ok h
          injection h with h2
          subst h2
          simp [min7]
        | cons p ps =>
          cases is2 with
          | nil =>
            simp only [zipForecast] at h
            obtain ⟨-, -, h⟩ := except_bind_ok h
            obtain ⟨-, -, h⟩ := except_bind_ok h
            injection h with h2
            subst h2
            simp [min7]
          | cons i is2 =>
            cases ws with
            | nil =>
              simp only [zipForecast] at h
              obtain ⟨-, -, h⟩ := except_bind_ok h
              obtain ⟨-, -, h⟩ := except_bind_ok h
              injection h with h2
              subst h2
              simp [min7]
            | cons w ws =>
              cases xs with
              | nil =>
                simp only [zipForecast] at h
                obtain ⟨-, -, h⟩ := except_bind_ok h
                obtain ⟨-, -, h⟩ := except_bind_ok h
                injection h with h2
                subst h2
                simp [min7]
              | cons x xs =>
                simp only [zipForecast] at h
                obtain ⟨temp, htemp, h⟩ := except_bind_ok h
                obtain ⟨pop, hpop, h⟩ := except_bind_ok h
                obtain ⟨rest, hrest, h⟩ := except_bind_ok h
                rw [pure_ok] at h
                injection h with h2
                subst h2
                have := ih hs ts ps is2 ws xs rest hrest
                simp only [List.length_cons, min7] at this ⊢
                omega

theorem zipForecast_get (ns : List PyVal) :
    ∀ (hs : List Bool) (ts ps is2 ws xs : List PyVal) (fc : List Forecast),
      zipForecast ns hs ts ps is2 ws xs = .ok fc →
      ∀ (i : Nat) (hf : i < fc.length) (hn : i < ns.length) (hh : i < hs.length),
        (fc.get ⟨i, hf⟩).when = ns.get ⟨i, hn⟩ ∧
        (fc.get ⟨i, hf⟩).is_high = hs.get ⟨i, hh⟩ := by
  induction ns with
  | nil =>
    intro hs ts ps is2 ws xs fc h
    simp only [zipForecast] at h
    injection h with h2
    subst h2
    intro i hf hn hh
    exact absurd hf (by simp)
  | cons n ns ih =>
    intro hs ts ps is2 ws xs fc h
    cases hs with
    | nil =>
      simp only [zipForecast] at h
      injection h with h2
      subst h2
      intro i hf hn hh
      exact absurd hf (by simp)
    | cons b hs =>
      cases ts with
      | nil =>
        simp only [zipForecast] at h
        injection h with h2
        subst h2
        intro i hf hn hh
        exact absurd hf (by simp)
      | cons t ts =>
        cases ps with
        | nil =>
          simp only [zipForecast] at h
          obtain ⟨-, -, h⟩ := except_bind_ok h
          injection h with h2
          subst h2
          intro i hf hn hh
          exact absurd hf (by simp)
        | cons p ps =>
          cases is2 with
          | nil =>
            simp only [zipForecast] at h
            obtain ⟨-, -, h⟩ := except_bind_ok h
            obtain ⟨-, -, h⟩ := except_bind_ok h
            injection h with h2
            subst h2
            intro i hf hn hh
            exact absurd hf (by simp)
          | cons i0 is2 =>
            cases ws with
            | nil =>
              simp only [zipForecast] at h
              obtain ⟨-, -, h⟩ := except_bind_ok h
              obtain ⟨-, -, h⟩ := except_bind_ok h
              injection h with h2
              subst h2
              intro i hf hn hh
              exact absurd hf (by simp)
            | cons w ws =>
              cases xs with
              | nil =>
                simp only [zipForecast] at h
                obtain ⟨-, -, h⟩ := except_bind_ok h
                obtain ⟨-, -, h⟩ := except_bind_ok h
                injection h with h2
                subst h2
                intro i hf hn hh
                exact absurd hf (by simp)
              | cons x xs =>
                simp only [zipForecast] at h
                obtain ⟨temp, htemp, h⟩ := except_bind_ok h
                obtain ⟨pop, hpop, h⟩ := except_bind_ok h
                obtain ⟨rest, hrest, h⟩ := except_bind_ok h
                rw [pure_ok] at h
                injection h with h2
                subst h2
                intro i hf hn hh
                cases i with
                | zero => exact ⟨rfl, rfl⟩
                | succ j =>
                  exact ih hs ts ps is2 ws xs rest hrest j
                    (Nat.lt_of_succ_lt_succ hf) (Nat.lt_of_succ_lt_succ hn)
                    (Nat.lt_of_succ_lt_succ hh)

theorem zipForecast_ok (ns : List PyVal) :
    ∀ (hs : List Bool) (ts ps is2 ws xs : List PyVal),
      (∀ v ∈ ts.take (min7 ns.length hs.length ts.length ps.length is2.length
          ws.length xs.length + 1), v.isScalar = true) →
      (∀ v ∈ ps.take (min7 ns.length hs.length ts.length ps.length is2.length
          ws.length xs.length + 1), v.isScalar = true) →
      ∃ fc, zipForecast ns hs ts ps is2 ws xs = .ok fc := by
  induction ns with
  | nil =>
    intro hs ts ps is2 ws xs hT hP
    exact ⟨[], by simp [zipForecast]⟩
  | cons n ns ih =>
    intro hs ts ps is2 ws xs hT hP
    cases hs with
    | nil => exact ⟨[], by simp [zipForecast]⟩
    | cons b hs =>
      cases ts with
      | nil => exact ⟨[], by simp [zipForecast]⟩
      | cons t ts =>
        cases ps with
        | nil =>
          have ht : t.isScalar = true := hT t (by simp [min7])
          obtain ⟨temp, htemp⟩ := parse_int_scalar_ok 0 ht
          exact ⟨[], by simp [zipForecast, htemp, ok_bind]⟩
        | cons p ps =>
          cases is2 with
          | nil =>
            have ht : t.isScalar = true := hT t (by simp [min7])
            have hp : p.isScalar = true := hP p (by simp [min7])
            obtain ⟨temp, htemp⟩ := parse_int_scalar_ok 0 ht
            obtain ⟨pop, hpop⟩ := parse_int_scalar_ok 0 hp
            exact ⟨[], by simp [zipForecast, htemp, hpop, ok_bind]⟩
          | cons i0 is2 =>
            cases ws with
            | nil =>
              have ht : t.isScalar = true := hT t (by simp [min7])
              have hp : p.isScalar = true := hP p (by simp [min7])
              obtain ⟨temp, htemp⟩ := parse_int_scalar_ok 0 ht
              obtain ⟨pop, hpop⟩ := parse_int_scalar_ok 0 hp
              exact ⟨[], by simp [zipForecast, htemp, hpop, ok_bind]⟩
            | cons w ws =>
              cases xs with
              | nil =>
                have ht : t.isScalar = true := hT t (by simp [min7])
                have hp : p.isScalar = true := hP p (by simp [min7])
                obtain ⟨temp, htemp⟩ := parse_int_scalar_ok 0 ht
                obtain ⟨pop, hpop⟩ := parse_int_scalar_ok 0 hp
                exact ⟨[], by simp [zipForecast, htemp, hpop, ok_bind]⟩
              | cons x xs =>
                simp only [List.length_cons, min7_succ, List.take_succ_cons,
                  List.mem_cons] at hT hP
                have ht : t.isScalar = true := hT t (Or.inl rfl)
                have hp : p.isScalar = true := hP p (Or.inl rfl)
                obtain ⟨temp, htemp⟩ := parse_int_scalar_ok 0 ht
                obtain ⟨pop, hpop⟩ := parse_int_scalar_ok 0 hp
                obtain ⟨rest, hrest⟩ := ih hs ts ps is2 ws xs
                  (fun v hv => hT v (Or.inr hv)) (fun v hv => hP v (Or.inr hv))
                exact ⟨⟨n, b, temp, pop, i0, w, x⟩ :: rest,
                  by simp [zipForecast, htemp, hpop, hrest, ok_bind, pure_ok]⟩

theorem buildForecast_shape {raw t d : List (String × PyVal)}
    {names labels temps pops icons weathers texts : List PyVal}
    (h : RawShape raw t d names labels temps pops icons weathers texts) :
    buildForecast raw =
      zipForecast names (labels.map isHighLabel) temps pops icons weathers texts := by
  simp [buildForecast, pySubscript, pyIter, h.time_eq, h.data_eq, h.names_eq,
    h.labels_eq, h.temps_eq, h.pops_eq, h.icons_eq, h.weathers_eq, h.texts_eq,
    ok_bind]

theorem create_report_ok_inv {raw : List (String × PyVal)} {latitude longitude : Rat}
    {rep : WeatherReport} (h : create_report raw latitude longitude = .ok rep) :
    buildLocation ((raw.lookup "location").getD (.dict [])) = .ok rep.location ∧
    buildCurrent ((raw.lookup "currentobservation").getD (.dict [])) = .ok rep.current ∧
    buildForecast raw = .ok rep.forecast := by
  unfold create_report at h
  split at h
  · exact absurd h (by simp)
  · obtain ⟨loc, hloc, h⟩ := except_bind_ok h
    obtain ⟨cur, hcur, h⟩ := except_bind_ok h
    obtain ⟨fc, hfc, h⟩ := except_bind_ok h
    rw [pure_ok] at h
    injection h with h2
    subst h2
    exact ⟨hloc, hcur, hfc⟩

theorem create_report_ok_of {raw : List (String × PyVal)} {latitude longitude : Rat}
    {loc : ReportLocation} {cur : WeatherData} {fc : List Forecast}
    (ht : (raw.lookup "time").isNone = false)
    (hl : buildLocation ((raw.lookup "location").getD (.dict [])) = .ok loc)
    (hc : buildCurrent ((raw.lookup "currentobservation").getD (.dict [])) = .ok cur)
    (hf : buildForecast raw = .ok fc) :
    create_report raw latitude longitude = .ok ⟨loc, cur, fc⟩ := by
  simp [create_report, ht, hl, hc, hf, ok_bind, pure_ok]

/-! ### Claims -/

/-- C1: for every raw payload lacking the top-level `time` key, building a
report with any latitude and longitude raises the MalformedResponse error —
a `ValueError` — and the error message contains the literal latitude and
longitude values that were passed in (they are spliced into the message
text between fixed fragments). -/
theorem claim_C1 (raw : List (String × PyVal)) (latitude longitude : Rat)
    (h : raw.lookup "time" = Option.none) :
    create_report raw latitude longitude =
      .error (.valueError (missing_time_message latitude longitude)) ∧
    missing_time_message latitude longitude =
      "Fields are unexpectedly missing from the response returned by the server. Check your latitude and longitude, make sure it is in the United States!\n Latitude="
        ++ toString latitude ++ ", Longitude=" ++ toString longitude := by
  constructor
  · unfold create_report
    rw [h]
    exact if_pos rfl
  · rfl

/-- C1 witness: the empty payload at coordinates 1 and 2. -/
theorem claim_C1_witness :
    create_report [] 1 2 =
      .error (.valueError (missing_time_message 1 2)) ∧
    missing_time_message 1 2 =
      "Fields are unexpectedly missing from the response returned by the server. Check your latitude and longitude, make sure it is in the United States!\n Latitude="
        ++ toString (1 : Rat) ++ ", Longitude=" ++ toString (2 : Rat) :=
  claim_C1 [] 1 2 rfl

/-- C4 fails as stated: the coercers catch only `ValueError`, so a
conversion failure of a different kind — `int()`/`float()` on a list or a
dict raises `TypeError` — escapes to the caller instead of producing the
default. -/
theorem claim_C4_counterexample :
    parse_int (PyVal.list []) 0 = .error .typeError ∧
    parse_float (PyVal.dict []) 0 = .error .typeError :=
  ⟨rfl, rfl⟩

/-- C4 (amended): `parse_int` and `parse_float` return the default
immediately on the absent sentinel `None`, and return the default whenever
the conversion fails with a `ValueError` (as for unparseable strings); a
`ValueError` never escapes, but a conversion failure of any other class —
a `TypeError`, raised exactly for list and dict inputs — propagates to the
caller instead of yielding the default. -/
theorem claim_C4_amended (v : PyVal) (di : Int) (df : Rat) :
    (parse_int PyVal.none di = .ok di ∧ parse_float PyVal.none df = .ok df) ∧
    (∀ m, int_conv v = .error (.valueError m) → parse_int v di = .ok di) ∧
    (∀ m, float_conv v = .error (.valueError m) → parse_float v df = .ok df) ∧
    (∀ e, parse_int v di = .error e → e = .typeError ∧ v.isScalar = false) ∧
    (∀ e, parse_float v df = .error e → e = .typeError ∧ v.isScalar = false) := by
  refine ⟨⟨rfl, rfl⟩, ?_, ?_, ?_, ?_⟩
  · intro m hm
    exact parse_int_valueError di hm
  · intro m hm
    exact parse_float_valueError df hm
  · intro e he
    exact parse_int_error_inv he
  · intro e he
    exact parse_float_error_inv he

/-- C4 witness: the unparseable string input of the spec's example
degrades to the defaults. -/
theorem claim_C4_witness :
    parse_int (PyVal.str "N/A") 7 = .ok 7 ∧ parse_float (PyVal.str "N/A") 3 = .ok 3 :=
  ⟨(claim_C4_amended (PyVal.str "N/A") 7 3).2.1 _ rfl,
   (claim_C4_amended (PyVal.str "N/A") 7 3).2.2.1 _ rfl⟩

/-- C9: every non-`None` value of the JSON domain has a native truthiness,
so `parse_boolean` returns exactly that truthiness, independently of the
default — its try/except fallback is unreachable and the default is
returned only through the `None` path. -/
theorem claim_C9 (v : PyVal) (d : Bool) (hv : v ≠ PyVal.none) :
    parse_boolean v d = .ok (py_truth v) := by
  cases v with
  | none => exact absurd rfl hv
  | bool b => rfl
  | int n => rfl
  | float q => rfl
  | str s => rfl
  | list xs => rfl
  | dict es => rfl

/-- C9 witness: a non-empty string is truthy regardless of the default. -/
theorem claim_C9_witness : parse_boolean (PyVal.str "x") false = .ok true :=
  claim_C9 (PyVal.str "x") false (fun h => PyVal.noConfusion h)

/-- C8 fails as stated: with `time` present, a non-mapping `location`
value makes location extraction raise an `AttributeError` (its `.get`
calls fail), so extraction is not failure-free for every payload
containing `time`. -/
theorem claim_C8_counterexample :
    create_report [("time", PyVal.none), ("location", PyVal.str "x")] 0 0 =
      .error .attributeError := rfl

/-- C8 (amended): for payloads whose `location` value — an empty mapping
when the key is absent — is a mapping whose `latitude`, `longitude` and
`elevation` entries are scalars (absent, null, boolean, number or string),
location extraction never fails: the three coordinates are produced by the
float coercer (defaulting when absent or unparseable) and the name
defaults to "Unknown location" when `areaDescription` is absent.  A
non-mapping `location` raises `AttributeError` and an array- or
mapping-valued coordinate raises `TypeError`, as the counterexample
shows. -/
theorem claim_C8_amended (raw : List (String × PyVal)) (l : List (String × PyVal))
    (hl : (raw.lookup "location").getD (.dict []) = .dict l)
    (hok : locFieldsOK l = true) :
    ∃ loc, buildLocation ((raw.lookup "location").getD (.dict [])) = .ok loc ∧
      parse_float ((l.lookup "latitude").getD .none) = .ok loc.latitude ∧
      parse_float ((l.lookup "longitude").getD .none) = .ok loc.longitude ∧
      parse_float ((l.lookup "elevation").getD .none) = .ok loc.elevation ∧
      (l.lookup "latitude" = Option.none → loc.latitude = 0) ∧
      (l.lookup "longitude" = Option.none → loc.longitude = 0) ∧
      (l.lookup "elevation" = Option.none → loc.elevation = 0) ∧
      (l.lookup "areaDescription" = Option.none →
        loc.name = PyVal.str "Unknown location") ∧
      loc.name = (l.lookup "areaDescription").getD (.str "Unknown location") := by
  obtain ⟨loc, hbl, hlat, hlon, helev, hname⟩ := buildLocation_ok hok
  rw [hl]
  refine ⟨loc, hbl, hlat, hlon, helev, ?_, ?_, ?_, ?_, hname⟩
  · intro h0
    rw [h0] at hlat
    exact (Except.ok.inj hlat).symm
  · intro h0
    rw [h0] at hlon
    exact (Except.ok.inj hlon).symm
  · intro h0
    rw [h0] at helev
    exact (Except.ok.inj helev).symm
  · intro h0
    rw [h0] at hname
    exact hname.trans rfl

/-- C8 witness: a payload with no `location` key at all, where every field
takes its default. -/
theorem claim_C8_witness :
    ∃ loc, buildLocation (((sampleRaw.lookup "location")).getD (.dict [])) = .ok loc ∧
      parse_float ((List.lookup "latitude" ([] : List (String × PyVal))).getD .none) =
        .ok loc.latitude ∧
      parse_float ((List.lookup "longitude" ([] : List (String × PyVal))).getD .none) =
        .ok loc.longitude ∧
      parse_float ((List.lookup "elevation" ([] : List (String × PyVal))).getD .none) =
        .ok loc.elevation ∧
      (List.lookup "latitude" ([] : List (String × PyVal)) = Option.none →
        loc.latitude = 0) ∧
      (List.lookup "longitude" ([] : List (String × PyVal)) = Option.none →
        loc.longitude = 0) ∧
      (List.lookup "elevation" ([] : List (String × PyVal)) = Option.none →
        loc.elevation = 0) ∧
      (List.lookup "areaDescription" ([] : List (String × PyVal)) = Option.none →
        loc.name = PyVal.str "Unknown location") ∧
      loc.name = (List.lookup "areaDescription" ([] : List (String × PyVal))).getD
        (.str "Unknown location") :=
  claim_C8_amended sampleRaw [] rfl rfl

/-- C3 fails as stated: a payload that contains `time` but lacks the
forecast sub-keys makes `create_report` raise a `KeyError` for the missing
`startPeriodName` sequence instead of returning a defaulted report. -/
theorem claim_C3_counterexample :
    create_report [("time", PyVal.dict [])] 0 0 =
      .error (.keyError "startPeriodName") := rfl

/-- C3 (amended): `create_report` returns a (structurally complete, since
every record field is populated) `WeatherReport` for every payload in
which the `time` and `data` blocks are mappings holding the seven parallel
sequences as arrays, the temperature and precipitation entries up to and
including the zip's stopping index are scalars (`map` still applies
`parse_int` to the entry at the stopping index when a later-ordered
sequence is the exhausted one), and the `location` and
`currentobservation` values — empty mappings when absent — are mappings
whose coerced entries are scalars with a string image filename.  Missing
or unparseable scalar fields inside those blocks are silently defaulted;
but contrary to the claim, a missing `data` block, missing sequence
sub-keys, or a non-string `Weatherimage` value do raise (see the
counterexample). -/
theorem claim_C3_amended (raw t d : List (String × PyVal))
    (names labels temps pops icons weathers texts : List PyVal)
    (latitude longitude : Rat) (l c : List (String × PyVal))
    (hs : RawShape raw t d names labels temps pops icons weathers texts)
    (hl : (raw.lookup "location").getD (.dict []) = .dict l)
    (hlok : locFieldsOK l = true)
    (hc : (raw.lookup "currentobservation").getD (.dict []) = .dict c)
    (hcok : curFieldsOK c = true)
    (hT : ∀ v ∈ temps.take (min7 names.length labels.length temps.length
        pops.length icons.length weathers.length texts.length + 1), v.isScalar = true)
    (hP : ∀ v ∈ pops.take (min7 names.length labels.length temps.length
        pops.length icons.length weathers.length texts.length + 1), v.isScalar = true) :
    ∃ rep, create_report raw latitude longitude = .ok rep := by
  obtain ⟨loc, hloc, -, -, -, -⟩ := buildLocation_ok hlok
  obtain ⟨cur, hcur⟩ := buildCurrent_ok hcok
  have hT' : ∀ v ∈ temps.take (min7 names.length (labels.map isHighLabel).length
      temps.length pops.length icons.length weathers.length texts.length + 1),
      v.isScalar = true := by
    simpa only [List.length_map] using hT
  have hP' : ∀ v ∈ pops.take (min7 names.length (labels.map isHighLabel).length
      temps.length pops.length icons.length weathers.length texts.length + 1),
      v.isScalar = true := by
    simpa only [List.length_map] using hP
  obtain ⟨fc, hfc⟩ := zipForecast_ok names (labels.map isHighLabel)
    temps pops icons weathers texts hT' hP'
  have ht : (raw.lookup "time").isNone = false := by rw [hs.time_eq]; rfl
  refine ⟨⟨loc, cur, fc⟩, create_report_ok_of ht ?_ ?_ ?_⟩
  · rw [hl]
    exact hloc
  · rw [hc]
    exact hcur
  · rw [buildForecast_shape hs]
    exact hfc

/-- C3 witness: the two-period payload with a current block produces a
report. -/
theorem claim_C3_witness : ∃ rep, create_report sampleCurRaw 1 2 = .ok rep := by
  refine claim_C3_amended sampleCurRaw sampleTime sampleData _ _ _ _ _ _ _ 1 2 [] sampleCur
    ⟨rfl, rfl, rfl, rfl, rfl, rfl, rfl, rfl, rfl⟩ rfl rfl rfl rfl ?_ ?_
  · intro v hv
    have hv' : v ∈ [PyVal.str "58", PyVal.int 70] := List.take_subset _ _ hv
    simp only [List.mem_cons, List.not_mem_nil, or_false] at hv'
    rcases hv' with rfl | rfl <;> rfl
  · intro v hv
    have hv' : v ∈ [PyVal.none, PyVal.str "30"] := List.take_subset _ _ hv
    simp only [List.mem_cons, List.not_mem_nil, or_false] at hv'
    rcases hv' with rfl | rfl <;> rfl

/-- C2: when the seven parallel sequences under the `time` and `data`
blocks all have the same length, the forecast list of the report produced
by `create_report` has exactly the length of the `startPeriodName`
sequence, with one entry per index in the server's original order (the
period name of entry `i` is element `i` of `startPeriodName`). -/
theorem claim_C2 (raw t d : List (String × PyVal))
    (names labels temps pops icons weathers texts : List PyVal)
    (latitude longitude : Rat) (rep : WeatherReport)
    (hs : RawShape raw t d names labels temps pops icons weathers texts)
    (hlen : labels.length = names.length ∧ temps.length = names.length ∧
      pops.length = names.length ∧ icons.length = names.length ∧
      weathers.length = names.length ∧ texts.length = names.length)
    (hrep : create_report raw latitude longitude = .ok rep) :
    rep.forecast.length = names.length ∧
    ∀ (i : Nat) (hf : i < rep.forecast.length) (hn : i < names.length),
      (rep.forecast.get ⟨i, hf⟩).when = names.get ⟨i, hn⟩ := by
  obtain ⟨-, -, hfc⟩ := create_report_ok_inv hrep
  rw [buildForecast_shape hs] at hfc
  obtain ⟨e1, e2, e3, e4, e5, e6⟩ := hlen
  have hlen' := zipForecast_length _ _ _ _ _ _ _ _ hfc
  rw [List.length_map] at hlen'
  unfold min7 at hlen'
  constructor
  · omega
  · intro i hf hn
    have hh : i < (labels.map isHighLabel).length := by
      rw [List.length_map]
      omega
    exact (zipForecast_get _ _ _ _ _ _ _ _ hfc i hf hn hh).1

/-- C2 witness: the two-period sample payload yields two forecast entries
in server order. -/
theorem claim_C2_witness :
    sampleRep.forecast.length = 2 ∧
    ∀ (i : Nat) (hf : i < sampleRep.forecast.length) (hn : i < 2),
      (sampleRep.forecast.get ⟨i, hf⟩).when =
        [PyVal.str "Tonight", PyVal.str "Saturday"].get ⟨i, hn⟩ :=
  claim_C2 sampleRaw sampleTime sampleData _ _ _ _ _ _ _ 1 2 sampleRep
    ⟨rfl, rfl, rfl, rfl, rfl, rfl, rfl, rfl, rfl⟩
    ⟨rfl, rfl, rfl, rfl, rfl, rfl⟩ rfl

/-- C5: the `is_high` flag of the `i`-th forecast entry produced by
`create_report` is true exactly when element `i` of the `tempLabel`
sequence is the string "High" — case-sensitive, untrimmed; any other
value, including "Low", yields false. -/
theorem claim_C5 (raw t d : List (String × PyVal))
    (names labels temps pops icons weathers texts : List PyVal)
    (latitude longitude : Rat) (rep : WeatherReport)
    (hs : RawShape raw t d names labels temps pops icons weathers texts)
    (hrep : create_report raw latitude longitude = .ok rep)
    (i : Nat) (hf : i < rep.forecast.length) (hl : i < labels.length) :
    ((rep.forecast.get ⟨i, hf⟩).is_high = true ↔
      labels.get ⟨i, hl⟩ = PyVal.str "High") := by
  obtain ⟨-, -, hfc⟩ := create_report_ok_inv hrep
  rw [buildForecast_shape hs] at hfc
  have hh : i < (labels.map isHighLabel).length := by
    rw [List.length_map]
    exact hl
  have hn : i < names.length := by
    have hlen' := zipForecast_length _ _ _ _ _ _ _ _ hfc
    rw [List.length_map] at hlen'
    unfold min7 at hlen'
    omega
  have hg := (zipForecast_get _ _ _ _ _ _ _ _ hfc i hf hn hh).2
  rw [hg]
  have hmap : (labels.map isHighLabel).get ⟨i, hh⟩ = isHighLabel (labels.get ⟨i, hl⟩) := by
    simp [List.get_eq_getElem, List.getElem_map]
  rw [hmap]
  exact isHighLabel_iff _

/-- C5 witness: index 1 of the sample payload, whose label is "High". -/
theorem claim_C5_witness :
    ((sampleRep.forecast.get ⟨1, by decide⟩).is_high = true ↔
      [PyVal.str "Low", PyVal.str "High"].get ⟨1, by decide⟩ = PyVal.str "High") :=
  claim_C5 sampleRaw sampleTime sampleData _ _ _ _ _ _ _ 1 2 sampleRep
    ⟨rfl, rfl, rfl, rfl, rfl, rfl, rfl, rfl, rfl⟩ rfl 1 (by decide) (by decide)

/-- C6: the current-conditions image URL produced by `create_report` is
the fixed base path concatenated with the server's `Weatherimage`
filename, and exactly the base path when the key is absent. -/
theorem claim_C6 (raw c : List (String × PyVal)) (latitude longitude : Rat)
    (rep : WeatherReport)
    (hc : raw.lookup "currentobservation" = some (.dict c))
    (hrep : create_report raw latitude longitude = .ok rep) :
    (∀ w, c.lookup "Weatherimage" = some (.str w) →
      rep.current.url = "https://forecast.weather.gov/newimages/medium/" ++ w) ∧
    (c.lookup "Weatherimage" = Option.none →
      rep.current.url = "https://forecast.weather.gov/newimages/medium/") := by
  obtain ⟨-, hcur, -⟩ := create_report_ok_inv hrep
  rw [hc, Option.getD_some] at hcur
  have hu := (buildCurrent_fields hcur).2
  constructor
  · intro w hw
    rw [hw, Option.getD_some] at hu
    exact (Except.ok.inj hu).symm
  · intro hw
    rw [hw] at hu
    have h2 := (Except.ok.inj hu).symm
    rw [h2]
    simp

/-- C6 witness: filename "nbkn.png" yields the base path with that
filename appended. -/
theorem claim_C6_witness :
    sampleCurRep.current.url = "https://forecast.weather.gov/newimages/medium/" ++ "nbkn.png" :=
  (claim_C6 sampleCurRaw sampleCur 1 2 sampleCurRep rfl rfl).1 "nbkn.png" rfl

/-- C7: the current temperature is the integer coercion of the raw
`currentobservation.Temp` value: the string "58" gives 58 and a missing or
null value gives 0. -/
theorem claim_C7 (raw c : List (String × PyVal)) (latitude longitude : Rat)
    (rep : WeatherReport)
    (hc : raw.lookup "currentobservation" = some (.dict c))
    (hrep : create_report raw latitude longitude = .ok rep) :
    parse_int ((c.lookup "Temp").getD .none) = .ok rep.current.temperature ∧
    (c.lookup "Temp" = some (.str "58") → rep.current.temperature = 58) ∧
    ((c.lookup "Temp" = Option.none ∨ c.lookup "Temp" = some PyVal.none) →
      rep.current.temperature = 0) := by
  obtain ⟨-, hcur, -⟩ := create_report_ok_inv hrep
  rw [hc, Option.getD_some] at hcur
  have ht := (buildCurrent_fields hcur).1
  refine ⟨ht, ?_, ?_⟩
  · intro hw
    rw [hw, Option.getD_some] at ht
    exact (Except.ok.inj ht).symm
  · intro hw
    rcases hw with hw | hw
    · rw [hw] at ht
      exact (Except.ok.inj ht).symm
    · rw [hw, Option.getD_some] at ht
      exact (Except.ok.inj ht).symm

/-- C7 witness: `Temp = "58"` in the sample current block gives 58. -/
theorem claim_C7_witness : sampleCurRep.current.temperature = 58 :=
  (claim_C7 sampleCurRaw sampleCur 1 2 sampleCurRep rfl rfl).2.1 rfl

/-- C10 (implicit): when the seven parallel sequences have unequal
lengths, `create_report` neither raises nor pads — the zip stops at the
shortest sequence, the forecast list has length the minimum of the seven
lengths, and entries stay pointwise aligned in the original order up to
that length.  This holds under the same well-formedness side conditions
as the amended C3; in particular the scalar condition on temperature and
precipitation entries must include the stopping index, because `map`
still parses those boundary entries whenever the exhausted sequence comes
later in argument order. -/
theorem claim_C10 (raw t d : List (String × PyVal))
    (names labels temps pops icons weathers texts : List PyVal)
    (latitude longitude : Rat) (l c : List (String × PyVal))
    (hs : RawShape raw t d names labels temps pops icons weathers texts)
    (hl : (raw.lookup "location").getD (.dict []) = .dict l)
    (hlok : locFieldsOK l = true)
    (hc : (raw.lookup "currentobservation").getD (.dict []) = .dict c)
    (hcok : curFieldsOK c = true)
    (hT : ∀ v ∈ temps.take (min7 names.length labels.length temps.length
        pops.length icons.length weathers.length texts.length + 1), v.isScalar = true)
    (hP : ∀ v ∈ pops.take (min7 names.length labels.length temps.length
        pops.length icons.length weathers.length texts.length + 1), v.isScalar = true) :
    ∃ rep, create_report raw latitude longitude = .ok rep ∧
      rep.forecast.length = min7 names.length labels.length temps.length
        pops.length icons.length weathers.length texts.length ∧
      ∀ (i : Nat) (hf : i < rep.forecast.length) (hn : i < names.length),
        (rep.forecast.get ⟨i, hf⟩).when = names.get ⟨i, hn⟩ := by
  obtain ⟨loc, hloc, -, -, -, -⟩ := buildLocation_ok hlok
  obtain ⟨cur, hcur⟩ := buildCurrent_ok hcok
  have hT' : ∀ v ∈ temps.take (min7 names.length (labels.map isHighLabel).length
      temps.length pops.length icons.length weathers.length texts.length + 1),
      v.isScalar = true := by
    simpa only [List.length_map] using hT
  have hP' : ∀ v ∈ pops.take (min7 names.length (labels.map isHighLabel).length
      temps.length pops.length icons.length weathers.length texts.length + 1),
      v.isScalar = true := by
    simpa only [List.length_map] using hP
  obtain ⟨fc, hfc⟩ := zipForecast_ok names (labels.map isHighLabel)
    temps pops icons weathers texts hT' hP'
  have ht : (raw.lookup "time").isNone = false := by rw [hs.time_eq]; rfl
  have hrep : create_report raw latitude longitude = .ok ⟨loc, cur, fc⟩ :=
    create_report_ok_of ht (by rw [hl]; exact hloc) (by rw [hc]; exact hcur)
      (by rw [buildForecast_shape hs]; exact hfc)
  have hlen := zipForecast_length _ _ _ _ _ _ _ _ hfc
  rw [List.length_map] at hlen
  refine ⟨⟨loc, cur, fc⟩, hrep, hlen, ?_⟩
  intro i hf hn
  have hf' : i < fc.length := hf
  have hh : i < (labels.map isHighLabel).length := by
    rw [List.length_map]
    unfold min7 at hlen
    omega
  exact (zipForecast_get _ _ _ _ _ _ _ _ hfc i hf' hn hh).1

/-- C10 witness: sequence lengths 2, 1, 2, 3, 1, 1, 1 give a one-entry
forecast even though the temperature entry past the consumed prefix is not
scalar. -/
theorem claim_C10_witness :
    ∃ rep, create_report sampleRaggedRaw 1 2 = .ok rep ∧
      rep.forecast.length = min7 2 1 2 3 1 1 1 ∧
      ∀ (i : Nat) (hf : i < rep.forecast.length) (hn : i < 2),
        (rep.forecast.get ⟨i, hf⟩).when =
          [PyVal.str "Tonight", PyVal.str "Saturday"].get ⟨i, hn⟩ := by
  refine claim_C10 sampleRaggedRaw _ _ _ _ _ _ _ _ _ 1 2 [] []
    ⟨rfl, rfl, rfl, rfl, rfl, rfl, rfl, rfl, rfl⟩ rfl rfl rfl rfl ?_ ?_
  · intro v hv
    have hv' : v ∈ [PyVal.str "60", PyVal.str "x"] := List.take_subset _ _ hv
    simp only [List.mem_cons, List.not_mem_nil, or_false] at hv'
    rcases hv' with rfl | rfl <;> rfl
  · intro v hv
    have hv' : v ∈ [PyVal.none, PyVal.none, PyVal.none] := List.take_subset _ _ hv
    simp only [List.mem_cons, List.not_mem_nil, or_false, or_self] at hv'
    subst hv'
    rfl
